import Mathlib

/-!
Verification of the plan-generation core of the `recomender_train_plan`
repository (files `app/core/models.py`, `app/core/conditions.py`,
`app/core/recommender.py`, `app/core/exercise_ml.py`), as a shallow
embedding in Lean.

Modelling conventions:
* Python `int` values are modelled as `Int` (loop counters derived from
  `range(1, n+1)` are modelled as `Nat`).
* The condition registry (`conditions.json`, loaded by
  `conditions._load_conditions`) is data, not code; it is modelled as an
  explicit `List Condition` parameter threaded through every function that
  reads the registry.
* Python `set` values are modelled as `List` values used only through
  membership / emptiness, which the code also restricts itself to.
* The TF-IDF scorer of `exercise_ml.rank_exercises_for_goal` computes
  floating-point scores (sklearn `TfidfVectorizer` uses logarithms and an
  l2 norm), which have no exact shallow embedding; the score vector is
  abstracted as a `ScoreFn` parameter producing rational scores, and
  `np.argsort` on the negated scores is modelled as a descending argsort
  with ties resolved by original index.
* Python string lowercasing is modelled ASCII-wise via `Char.toLower`;
  the claims under verification never depend on lowercasing non-ASCII text.
-/

namespace RecTrain

/-- Python substring membership (`kw in s`) on character lists:
`leadsWith kw s` holds when `kw` is an initial run of `s`. -/
def leadsWith : List Char → List Char → Bool
  | [], _ => true
  | _ :: _, [] => false
  | c :: cs, d :: ds => c == d && leadsWith cs ds

/-- `hasSub kw s` : `kw` occurs contiguously somewhere in `s`. -/
def hasSub (kw : List Char) : List Char → Bool
  | [] => leadsWith kw []
  | d :: rest => leadsWith kw (d :: rest) || hasSub kw rest

/-- Python's `kw in s` substring test on strings. -/
def strIn (kw s : String) : Bool :=
  hasSub kw.toList s.toList

/-- Python's `s.lower()`, modelled on ASCII letters (`Char.toLower` applied
characterwise). -/
def lowerStr (s : String) : String :=
  String.mk (s.data.map Char.toLower)

/-- `conditions.Condition` (dataclass in `app/core/conditions.py`). -/
structure Condition where
  id : String
  name : String
  group : String
  sessions_per_week_max : Option Int
  cardio_level : Option String
  notes : String
deriving DecidableEq

/-- `models.UserProfile` (dataclass in `app/core/models.py`). -/
structure UserProfile where
  gender : String
  age : Int
  weight_kg : ℚ
  height_cm : Option ℚ
  activity_level : String
  goal : String
  experience_level : String
  preferred_location : String
  available_equipment : List String
  health_issues : List String
  max_sessions_per_week : Int
deriving DecidableEq

/-- `models.Exercise`. -/
structure Exercise where
  id : String
  name : String
  muscle_groups : List String
  equipment : List String
  difficulty : String
  exercise_type : String
  locations : List String
  contraindications : List String
  description : String
deriving DecidableEq

/-- `models.PlannedExercise`. -/
structure PlannedExercise where
  exercise_id : String
  sets : Int
  reps : Option Int
  duration_seconds : Option Int
  comment : String
deriving DecidableEq

/-- `models.TrainingSession`; `week_index`/`day_index` are the 1-based loop
counters of the generator, hence modelled as `Nat`. -/
structure TrainingSession where
  week_index : Nat
  day_index : Nat
  title : String
  exercises : List PlannedExercise
deriving DecidableEq

/-- `models.TrainingPlan`. -/
structure TrainingPlan where
  goal : String
  sessions_per_week : Int
  total_weeks : Int
  sessions : List TrainingSession
deriving DecidableEq

/-! ### Condition registry (`app/core/conditions.py`) -/

/-- `_load_conditions()` builds a dict keyed by `cond.id`, later records
overwriting earlier ones; `findCondition reg cid` is that dict's lookup. -/
def findCondition (reg : List Condition) (cid : String) : Option Condition :=
  reg.foldl (fun acc c => if c.id == cid then some c else acc) none

/-- `_known_condition_ids()` : the key set of the registry dict. -/
def knownConditionIds (reg : List Condition) : List String :=
  reg.map (·.id)

/-- `extract_condition_ids` : the profile tags recognized as condition ids. -/
def extractConditionIds (reg : List Condition) (healthIssues : List String) : List String :=
  healthIssues.filter (fun h => (knownConditionIds reg).contains h)

/-- `get_sessions_limit_for_profile` : minimum `sessions_per_week_max` over the
profile's matched conditions, `none` when there is no matched condition or no
matched condition carries a cap. -/
def getSessionsLimitForProfile (reg : List Condition) (profile : UserProfile) : Option Int :=
  let condIds := extractConditionIds reg profile.health_issues
  if condIds.isEmpty then none
  else
    let limits := condIds.filterMap (fun cid => (findCondition reg cid).bind (·.sessions_per_week_max))
    limits.min?

/-- The coarse group → tag mapping inside `get_risk_tags_for_profile`. -/
def groupRiskTags (group : String) : List String :=
  if group == "cardio" then ["сердце"]
  else if group == "joint" then ["суставы"]
  else if group == "spine" then ["спина"]
  else []

/-- The per-condition fine-grained tags inside `get_risk_tags_for_profile`. -/
def fineRiskTags (cid : String) : List String :=
  if cid == "joint_knee_arthrosis" then ["колени", "суставы"]
  else if cid == "joint_hip_arthrosis" then ["тазобедренные", "суставы"]
  else if cid == "joint_shoulder_impingement" then ["плечи", "суставы"]
  else if cid == "joint_elbow_wrist_pain" then ["локти", "запястья", "суставы"]
  else if cid == "spine_lumbar_pain" then ["поясница", "спина"]
  else if cid == "spine_cervical_pain" then ["шея", "спина"]
  else if cid == "metabolic_obesity" then ["ожирение"]
  else if cid == "metabolic_diabetes_type2" then ["диабет"]
  else if cid == "resp_asthma_mild" then ["астма"]
  else if cid == "other_pregnancy" then ["беременность"]
  else if cid == "other_post_surgery_general" then ["после операции"]
  else []

/-- `get_risk_tags_for_profile` : unknown profile tags verbatim, plus
group tags and fine-grained tags of every matched condition.  The Python
function returns a set; this list is only ever used through membership. -/
def getRiskTagsForProfile (reg : List Condition) (profile : UserProfile) : List String :=
  let known := knownConditionIds reg
  let unknownTags := profile.health_issues.filter (fun h => !(known.contains h))
  let derived := (extractConditionIds reg profile.health_issues).flatMap (fun cid =>
    match findCondition reg cid with
    | none => []
    | some cond => groupRiskTags cond.group ++ fineRiskTags cid)
  unknownTags ++ derived

/-! ### Cadence (`recommender._rule_based_sessions_per_week` and friends) -/

/-- Python's `int(round(x))` for a half-integer `x` represented as `2*x`:
banker's rounding (ties to the even integer).  Only applied to positive
values in this development. -/
def halfRoundEven (s2 : Int) : Int :=
  if s2 % 2 == 0 then s2 / 2
  else if (s2 / 2) % 2 == 0 then s2 / 2 else s2 / 2 + 1

/-- `_rule_based_sessions_per_week`.  The floating `score` is a half-integer
throughout, represented doubled (`score2 = 2*score`, exact).  Note that the
heart/joints deduction tests the literal legacy strings in
`profile.health_issues`, not the derived risk tags. -/
def ruleBasedSessionsPerWeek (profile : UserProfile) : Int :=
  let s1 : Int := 6
  let s2 := if profile.activity_level == "low" then s1 - 2
            else if profile.activity_level == "high" then s1 + 2 else s1
  let s3 := if profile.goal == "muscle_gain" || profile.goal == "endurance" then s2 + 2 else s2
  let s4 := if profile.health_issues.contains "сердце" || profile.health_issues.contains "суставы"
            then s3 - 2 else s3
  let s5 := if profile.experience_level == "beginner" then s4 - 1
            else if profile.experience_level == "advanced" then s4 + 1 else s4
  max 1 (min 5 (halfRoundEven s5))

/-- `_rule_based_total_weeks`. -/
def ruleBasedTotalWeeks (profile : UserProfile) : Int :=
  if profile.goal == "weight_loss" then 8
  else if profile.goal == "muscle_gain" then 12
  else if profile.goal == "endurance" then 8
  else if profile.goal == "maintenance" then 6
  else 6

/-- `recommend_sessions_per_week`.  `if ... and profile.max_sessions_per_week:`
is Python truthiness: the user cap is applied only when it is nonzero. -/
def recommendSessionsPerWeek (reg : List Condition) (profile : UserProfile) : Int :=
  let base := ruleBasedSessionsPerWeek profile
  let v1 := if profile.max_sessions_per_week != 0
            then min base profile.max_sessions_per_week else base
  let v2 := match getSessionsLimitForProfile reg profile with
            | some l => min v1 l
            | none => v1
  max 1 (min 7 v2)

/-- `recommend_total_weeks`. -/
def recommendTotalWeeks (profile : UserProfile) : Int :=
  ruleBasedTotalWeeks profile

/-! ### Eligibility (`recommender._select_allowed_exercises`) -/

/-- `_difficulty_score`. -/
def difficultyScore (level : String) : Int :=
  if level == "beginner" then 1
  else if level == "intermediate" then 2
  else 3

/-- The two location `continue` guards of `_select_allowed_exercises`. -/
def locationOk (profile : UserProfile) (ex : Exercise) : Bool :=
  !(profile.preferred_location == "home" && !(ex.locations.contains "home")) &&
  !(profile.preferred_location == "gym" && !(ex.locations.contains "gym"))

/-- The equipment `continue` guard of `_select_allowed_exercises`
(an empty declared-equipment list is unrestricted away from home). -/
def equipmentOk (profile : UserProfile) (ex : Exercise) : Bool :=
  let userEq := profile.available_equipment.map lowerStr
  let exEq := ex.equipment.map lowerStr
  let inter := exEq.any (fun e => userEq.contains e)
  if profile.preferred_location == "home" then
    !(!exEq.isEmpty && (userEq.isEmpty || !inter))
  else
    !(!exEq.isEmpty && !userEq.isEmpty && !inter)

/-- The conjunction of all four `continue` guards of
`_select_allowed_exercises`, in source order. -/
def allowedExercise (reg : List Condition) (profile : UserProfile) (ex : Exercise) : Bool :=
  locationOk profile ex &&
  equipmentOk profile ex &&
  !(decide (difficultyScore ex.difficulty > difficultyScore profile.experience_level + 1)) &&
  !((getRiskTagsForProfile reg profile).any (fun t => ex.contraindications.contains t))

/-- `_select_allowed_exercises` : pure order-preserving elimination. -/
def selectAllowedExercises (reg : List Condition) (profile : UserProfile)
    (exercises : List Exercise) : List Exercise :=
  exercises.filter (allowedExercise reg profile)

/-! ### Ranker (`app/core/exercise_ml.py`) -/

/-- Abstraction of the TF-IDF scorer: for a goal and a corpus it yields the
relevance score of each corpus element (floating-point in the source,
abstracted to rationals here). -/
abbrev ScoreFn := String → List RecTrain.Exercise → List ℚ

/-- A total order on index positions: strictly greater score first, ties by
ascending original index.  Used only to realize *one* output of
`np.argsort(-scores)`; see `argsortDesc`. -/
def rankRel (scores : List ℚ) (i j : Nat) : Prop :=
  scores.getD j 0 < scores.getD i 0 ∨ (scores.getD i 0 = scores.getD j 0 ∧ i ≤ j)

instance rankRelDecidable (scores : List ℚ) : DecidableRel (rankRel scores) :=
  fun i j => by unfold rankRel; exact inferInstance

/-- `np.argsort(-scores)`.  NumPy's contract guarantees only a permutation of
the index range ordered by non-increasing score; with the default `quicksort`
kind the order of equal scores is *not specified*.  An executable model must
fix some conforming order, and this one breaks ties by ascending original
index (NumPy's actual behavior below its small-array insertion-sort cutoff).
No theorem in this development asserts anything about the tie order: the
ranking properties proved (permutation, non-increasing scores, output sizes)
hold for every conforming argsort. -/
def argsortDesc (scores : List ℚ) : List Nat :=
  List.insertionSort (rankRel scores) (List.range scores.length)

/-- `rank_exercises_for_goal` (with the TF-IDF scores abstracted to
`scoreFn`): corpus of size ≤ 1 is returned unchanged; otherwise the corpus is
reordered by `argsortDesc`; a given `max_items` is clamped to at least 1 and
the reordered corpus truncated to it. -/
def rankExercisesForGoal (scoreFn : ScoreFn) (goal : String)
    (exercises : List RecTrain.Exercise) (maxItems : Option Int) :
    List RecTrain.Exercise :=
  if exercises.length ≤ 1 then exercises
  else
    let scores := scoreFn goal exercises
    let order := argsortDesc scores
    match maxItems with
    | none => order.filterMap (fun i => exercises[i]?)
    | some m => (order.take (max 1 m).toNat).filterMap (fun i => exercises[i]?)

/-! ### Exercise picking (`recommender._pick_exercises`) -/

/-- The type/muscle-keyword filter at the top of `_pick_exercises`
(`muscle_keyword in mg` is Python substring membership). -/
def typeMatches (ex : RecTrain.Exercise) (ty : String) (kw : Option String) : Bool :=
  ex.exercise_type == ty &&
  (match kw with
   | none => true
   | some k => ex.muscle_groups.any (fun mg => RecTrain.strIn k mg))

/-- The unused-first narrowing of `_pick_exercises`: when some candidates have
not yet been used anywhere in the plan, restrict to those. -/
def narrowUnused (filtered : List RecTrain.Exercise) (usedGlobal : List String) :
    List RecTrain.Exercise :=
  if usedGlobal.isEmpty then filtered
  else
    let unused := filtered.filter (fun ex => !(usedGlobal.contains ex.id))
    if unused.isEmpty then filtered else unused

/-- `_pick_exercises`.  `if goal:` is Python truthiness (non-`None`,
non-empty); the generator always passes `profile.goal`, so the `else`
branch (stable sort by id, then truncation) only runs for an empty goal. -/
def pickExercises (scoreFn : ScoreFn) (allEx : List RecTrain.Exercise)
    (ty : String) (kw : Option String) (maxItems : Int) (goal : Option String)
    (usedGlobal : List String) : List RecTrain.Exercise :=
  let filtered := allEx.filter (fun ex => typeMatches ex ty kw)
  if filtered.isEmpty then []
  else
    let narrowed := narrowUnused filtered usedGlobal
    let goalTruthy := match goal with | some g => !(g == "") | none => false
    if goalTruthy then
      rankExercisesForGoal scoreFn (goal.getD "") narrowed (some maxItems)
    else
      (List.insertionSort (fun a b : RecTrain.Exercise => a.id ≤ b.id) narrowed).take maxItems.toNat

/-! ### Plan generation (`recommender.generate_training_plan`) -/

/-- `_sets_reps_for_strength`. -/
def setsRepsForStrength (level : String) : Int × Int :=
  if level == "beginner" then (2, 12)
  else if level == "intermediate" then (3, 10)
  else (4, 8)

/-- `_duration_for_cardio_seconds`. -/
def durationForCardioSeconds (level : String) : Int :=
  if level == "beginner" then 8 * 60
  else if level == "intermediate" then 12 * 60
  else 18 * 60

/-- `_exercise_priority` : compound movements first, then by type. -/
def exercisePriority (ex : RecTrain.Exercise) : Int :=
  let nm := RecTrain.lowerStr ex.name
  if RecTrain.strIn "squat" nm then 0
  else if RecTrain.strIn "deadlift" nm then 1
  else if RecTrain.strIn "bench press" nm then 2
  else if RecTrain.strIn "bench" nm && RecTrain.strIn "press" nm then 3
  else if RecTrain.strIn "row" nm || RecTrain.strIn "pulldown" nm ||
          RecTrain.strIn "pull-up" nm || RecTrain.strIn "pull up" nm then 4
  else if RecTrain.strIn "lunge" nm || RecTrain.strIn "step-up" nm ||
          RecTrain.strIn "step up" nm then 5
  else if ex.exercise_type == "strength" then 10
  else if ex.exercise_type == "cardio" then 20
  else 30

/-- `_build_session_title`. -/
def buildSessionTitle (profile : RecTrain.UserProfile) (d : Nat) : String :=
  let base :=
    if profile.goal == "weight_loss" then "Похудение"
    else if profile.goal == "muscle_gain" then "Набор массы"
    else if profile.goal == "maintenance" then "Поддержание формы"
    else if profile.goal == "endurance" then "Выносливость"
    else if profile.goal == "back_health" then "Спина"
    else if profile.goal == "general_health" then "Общее здоровье"
    else "Тренировка"
  s!"{base} — день {d}"

/-- The goal-specific minimum size of a day's main block
(the `min_main` assignment in `generate_training_plan`). -/
def mainMinimum (goal : String) : Int :=
  if goal == "muscle_gain" then 5
  else if goal == "weight_loss" then 6
  else if goal == "endurance" then 4
  else 3

/-- The goal-template block assembly of `generate_training_plan` for day `d`
(`main_ex` before padding).  `used` is the running set of globally used
exercise ids; the generator passes `d ≥ 1`. -/
def preMainEx (scoreFn : ScoreFn) (profile : RecTrain.UserProfile)
    (allowed : List RecTrain.Exercise) (used : List String) (d : Nat) :
    List RecTrain.Exercise :=
  let g := profile.goal
  if g == "muscle_gain" then
    let dayInCycle := (d - 1) % 3 + 1
    if dayInCycle == 1 then
      pickExercises scoreFn allowed "strength" (some "грудь") 4 (some g) used ++
      pickExercises scoreFn allowed "strength" (some "плечи") 2 (some g) used
    else if dayInCycle == 2 then
      pickExercises scoreFn allowed "strength" (some "ноги") 4 (some g) used ++
      pickExercises scoreFn allowed "strength" (some "пресс") 2 (some g) used
    else
      pickExercises scoreFn allowed "strength" (some "спина") 4 (some g) used ++
      pickExercises scoreFn allowed "strength" (some "бицепс") 2 (some g) used
  else if g == "back_health" then
    pickExercises scoreFn allowed "rehab" none 4 (some g) used ++
    pickExercises scoreFn allowed "mobility" none 3 (some g) used
  else if g == "endurance" then
    pickExercises scoreFn allowed "cardio" none 4 (some g) used ++
    pickExercises scoreFn allowed "strength" (some "ноги") 2 (some g) used
  else if g == "weight_loss" then
    pickExercises scoreFn allowed "strength" none 5 (some g) used ++
    pickExercises scoreFn allowed "cardio" none 3 (some g) used
  else
    pickExercises scoreFn allowed "strength" none 3 (some g) used ++
    pickExercises scoreFn allowed "cardio" none 2 (some g) used ++
    pickExercises scoreFn allowed "mobility" none 2 (some g) used

/-- The day's full main block: template blocks, generic-strength padding up to
`mainMinimum`, then stable sort by `exercisePriority` (guarded by the
`if main_ex:` of the source; sorting `[]` is a no-op either way). -/
def assembleMainEx (scoreFn : ScoreFn) (profile : RecTrain.UserProfile)
    (allowed : List RecTrain.Exercise) (used : List String) (d : Nat) :
    List RecTrain.Exercise :=
  let pre := preMainEx scoreFn profile allowed used d
  let minMain := mainMinimum profile.goal
  let padded :=
    if (pre.length : Int) < minMain then
      pre ++ pickExercises scoreFn allowed "strength" none (minMain - (pre.length : Int))
               (some profile.goal) used
    else pre
  if padded.isEmpty then padded
  else List.insertionSort
        (fun a b : RecTrain.Exercise => exercisePriority a ≤ exercisePriority b) padded

/-- The per-exercise prescription by exercise type (the three
`PlannedExercise(...)` constructions in the main-block loop). -/
def plannedForExercise (mainSets mainReps cardioDuration : Int)
    (ex : RecTrain.Exercise) : RecTrain.PlannedExercise :=
  if ex.exercise_type == "cardio" then
    { exercise_id := ex.id, sets := 1, reps := none,
      duration_seconds := some cardioDuration,
      comment := "Основной блок: интервальное или ровное кардио, контролируйте дыхание." }
  else if ex.exercise_type == "mobility" || ex.exercise_type == "rehab" then
    { exercise_id := ex.id, sets := 2, reps := some 10, duration_seconds := none,
      comment := "Основной блок: реабилитация/мобилити, движения плавные, без рывков." }
  else
    { exercise_id := ex.id, sets := mainSets, reps := some mainReps,
      duration_seconds := none,
      comment := "Основной блок: силовая часть, техника и небольшой запас по усилию." }

/-- The main-block emission loop: skip ids already used in this session,
record each emitted id in the session-local and global used sets.  (The
warmup and cooldown blocks of the source are intentionally empty, so they
emit nothing.)  Returns the planned list and the updated global used set. -/
def buildPlanned (ms mr cd : Int) :
    List RecTrain.Exercise → List String → List String →
    List RecTrain.PlannedExercise × List String
  | [], _, usedG => ([], usedG)
  | ex :: rest, usedS, usedG =>
    if usedS.contains ex.id then buildPlanned ms mr cd rest usedS usedG
    else
      let res := buildPlanned ms mr cd rest (ex.id :: usedS) (ex.id :: usedG)
      (plannedForExercise ms mr cd ex :: res.1, res.2)

/-- The micro-cycle volume of week `w` (the `cycle_week` branch at the top of
the week loop): `(main_sets, main_reps, cardio_duration)`.  The ×1.1 and ×0.9
cardio scalings are exact integer results at all three experience baselines,
so `int(base * k)` coincides with the rational floor used here. -/
def volumeForWeek (setsD repsD cardioBase : Int) (w : Nat) : Int × Int × Int :=
  let cycleWeek := (w - 1) % 4 + 1
  let mainReps :=
    if cycleWeek == 2 || cycleWeek == 3 then repsD + 1
    else if cycleWeek == 4 then max (repsD - 1) (max 6 (repsD - 2))
    else repsD
  let cardioDuration :=
    if cycleWeek == 2 || cycleWeek == 3 then cardioBase * 11 / 10
    else if cycleWeek == 4 then cardioBase * 9 / 10
    else cardioBase
  (setsD, mainReps, cardioDuration)

/-- The body of the day loop of `generate_training_plan`: assemble day `d` of
week `w` given the global used-id set, producing the session and the updated
used-id set. -/
def makeSession (scoreFn : ScoreFn) (profile : RecTrain.UserProfile)
    (allowed : List RecTrain.Exercise) (setsD repsD cardioBase : Int)
    (used : List String) (w d : Nat) :
    RecTrain.TrainingSession × List String :=
  let v := volumeForWeek setsD repsD cardioBase w
  let mainEx := assembleMainEx scoreFn profile allowed used d
  let res := buildPlanned v.1 v.2.1 v.2.2 mainEx [] used
  ({ week_index := w, day_index := d,
     title := buildSessionTitle profile d, exercises := res.1 }, res.2)

/-- One iteration of the week/day double loop: append the day's session. -/
def sessionStep (scoreFn : ScoreFn) (profile : RecTrain.UserProfile)
    (allowed : List RecTrain.Exercise) (setsD repsD cardioBase : Int)
    (acc : List RecTrain.TrainingSession × List String) (wd : Nat × Nat) :
    List RecTrain.TrainingSession × List String :=
  let r := makeSession scoreFn profile allowed setsD repsD cardioBase acc.2 wd.1 wd.2
  (acc.1 ++ [r.1], r.2)

/-- The `(week, day)` pairs visited by the generator's nested loops
`for w in range(1, total_weeks+1): for d in range(1, sessions_per_week+1)`. -/
def weekDayPairs (tw spw : Nat) : List (Nat × Nat) :=
  (List.range tw).flatMap (fun wi => (List.range spw).map (fun di => (wi + 1, di + 1)))

/-- `generate_training_plan`. -/
def generateTrainingPlan (scoreFn : ScoreFn) (reg : List RecTrain.Condition)
    (profile : RecTrain.UserProfile) (exercises : List RecTrain.Exercise) :
    RecTrain.TrainingPlan :=
  let spw := RecTrain.recommendSessionsPerWeek reg profile
  let tw := RecTrain.recommendTotalWeeks profile
  let allowed := RecTrain.selectAllowedExercises reg profile exercises
  let sr := setsRepsForStrength profile.experience_level
  let cardioBase := durationForCardioSeconds profile.experience_level
  let res := (weekDayPairs tw.toNat spw.toNat).foldl
    (sessionStep scoreFn profile allowed sr.1 sr.2 cardioBase) ([], [])
  { goal := profile.goal, sessions_per_week := spw, total_weeks := tw,
    sessions := res.1 }

/-! ### Spec-side definitions for refinement comparison -/

/-- The cadence formula as the spec states it (claim C8): the heart/joints
deduction is driven by the derived risk-tag set.  Kept separate from
`ruleBasedSessionsPerWeek`, which is translated from the source and tests the
literal legacy strings in `profile.health_issues`. -/
def specRuleBasedSessionsC8 (reg : List Condition) (profile : UserProfile) : Int :=
  let riskTags := getRiskTagsForProfile reg profile
  let score2 : Int := 6
    + (if profile.activity_level == "high" then 2
       else if profile.activity_level == "low" then -2 else 0)
    + (if profile.goal == "muscle_gain" || profile.goal == "endurance" then 2 else 0)
    + (if riskTags.contains "сердце" || riskTags.contains "суставы" then -2 else 0)
    + (if profile.experience_level == "advanced" then 1
       else if profile.experience_level == "beginner" then -1 else 0)
  max 1 (min 5 (halfRoundEven score2))

/-- The cadence formula of claim C8 amended to what the source computes: the
deduction tests the literal legacy tags in the profile's health-issue list. -/
def specRuleBasedSessionsAmended (profile : UserProfile) : Int :=
  let score2 : Int := 6
    + (if profile.activity_level == "high" then 2
       else if profile.activity_level == "low" then -2 else 0)
    + (if profile.goal == "muscle_gain" || profile.goal == "endurance" then 2 else 0)
    + (if profile.health_issues.contains "сердце" || profile.health_issues.contains "суставы"
       then -2 else 0)
    + (if profile.experience_level == "advanced" then 1
       else if profile.experience_level == "beginner" then -1 else 0)
  max 1 (min 5 (halfRoundEven score2))

/-- The generic-strength pool the padding step draws from: eligible strength
exercises, narrowed to unused-first. -/
def genericStrengthPool (allowed : List Exercise) (used : List String) : List Exercise :=
  narrowUnused (allowed.filter (fun ex => typeMatches ex "strength" none)) used

/-! ### Concrete data for witnesses and counterexamples -/

/-- A concrete scorer: every document scores 0.  This is exactly what the
TF-IDF scorer returns when no goal-query token occurs in any exercise
document, so it is a reachable instantiation of the abstract `ScoreFn`. -/
def zeroScorer : ScoreFn := fun _ exs => exs.map (fun _ => 0)

/-- A minimal strength exercise for concrete scenarios. -/
def mkStrengthEx (i nm : String) (mg : List String) : Exercise :=
  { id := i, name := nm, muscle_groups := mg, equipment := [],
    difficulty := "beginner", exercise_type := "strength",
    locations := ["home", "gym"], contraindications := [], description := "" }

/-- Endurance beginner profile capped at one session per week. -/
def witProfileEndurance : UserProfile :=
  { gender := "m", age := 30, weight_kg := 70, height_cm := none,
    activity_level := "medium", goal := "endurance",
    experience_level := "beginner", preferred_location := "no_preference",
    available_equipment := [], health_issues := [], max_sessions_per_week := 1 }

/-- Four distinct eligible leg-strength exercises. -/
def witCatalogLegs : List Exercise :=
  [mkStrengthEx "a" "alpha" ["ноги"], mkStrengthEx "b" "beta" ["ноги"],
   mkStrengthEx "c" "gamma" ["ноги"], mkStrengthEx "d" "delta" ["ноги"]]

/-- A registry holding one knee-arthrosis condition with a cap of 3. -/
def witRegKnee : List Condition :=
  [{ id := "joint_knee_arthrosis", name := "Артроз колена", group := "joint",
     sessions_per_week_max := some 3, cardio_level := none, notes := "" }]

/-- A profile whose only health issue is the knee-arthrosis condition id. -/
def witProfileKnee : UserProfile :=
  { gender := "m", age := 50, weight_kg := 80, height_cm := none,
    activity_level := "medium", goal := "maintenance",
    experience_level := "intermediate", preferred_location := "no_preference",
    available_equipment := [], health_issues := ["joint_knee_arthrosis"],
    max_sessions_per_week := 7 }

/-- `witProfileKnee` with a user cap of 2 sessions per week. -/
def witProfileKneeCap2 : UserProfile :=
  { witProfileKnee with max_sessions_per_week := 2 }

/-- A profile declaring a zero (falsy) maximum sessions per week. -/
def witProfileMax0 : UserProfile :=
  { gender := "f", age := 30, weight_kg := 60, height_cm := none,
    activity_level := "medium", goal := "maintenance",
    experience_level := "intermediate", preferred_location := "no_preference",
    available_equipment := [], health_issues := [], max_sessions_per_week := 0 }

/-- A gym profile with an empty (hence unrestricted) equipment list. -/
def witProfileGymNoEq : UserProfile :=
  { gender := "m", age := 30, weight_kg := 70, height_cm := none,
    activity_level := "medium", goal := "maintenance",
    experience_level := "advanced", preferred_location := "gym",
    available_equipment := [], health_issues := [], max_sessions_per_week := 3 }

/-- A gym-only exercise requiring a barbell. -/
def witExBarbell : Exercise :=
  { id := "bb", name := "barbell curl", muscle_groups := ["бицепс"],
    equipment := ["barbell"], difficulty := "beginner", exercise_type := "strength",
    locations := ["gym"], contraindications := [], description := "" }

/-- An exercise requiring a mat, allowed anywhere. -/
def witExMat : Exercise :=
  { id := "mat1", name := "mat stretch", muscle_groups := ["спина"],
    equipment := ["mat"], difficulty := "beginner", exercise_type := "mobility",
    locations := ["home", "gym"], contraindications := [], description := "" }

/-- A profile with legacy free-form health tag "суставы". -/
def witProfileJoints : UserProfile :=
  { gender := "m", age := 40, weight_kg := 75, height_cm := none,
    activity_level := "medium", goal := "maintenance",
    experience_level := "intermediate", preferred_location := "no_preference",
    available_equipment := [], health_issues := ["суставы"],
    max_sessions_per_week := 1 }

/-- An exercise contraindicated for joints. -/
def witExContra : Exercise :=
  { id := "x" , name := "jump" , muscle_groups := ["ноги"], equipment := [],
    difficulty := "beginner", exercise_type := "strength",
    locations := ["home", "gym"], contraindications := ["суставы"],
    description := "" }

/-- A two-exercise catalog: one contraindicated for joints, one harmless. -/
def witCatalogContra : List Exercise :=
  [witExContra, mkStrengthEx "ok1" "plain move" ["ноги"]]

/-- A one-exercise strength catalog (for the padding-shortfall witness). -/
def witCatalogOneLeg : List Exercise :=
  [mkStrengthEx "a" "alpha" ["ноги"]]

/-- A home profile that declared one equipment item ("mat"). -/
def witProfileHomeMat : UserProfile :=
  { gender := "f", age := 28, weight_kg := 55, height_cm := none,
    activity_level := "medium", goal := "general_health",
    experience_level := "beginner", preferred_location := "home",
    available_equipment := ["mat"], health_issues := [],
    max_sessions_per_week := 2 }

/-! ## Infrastructure lemmas -/

theorem mem_rank_subset {scoreFn : ScoreFn} {g : String} {exs : List Exercise}
    {mi : Option Int} {x : Exercise}
    (hx : x ∈ rankExercisesForGoal scoreFn g exs mi) : x ∈ exs := by
  unfold rankExercisesForGoal at hx
  split at hx
  · exact hx
  · rcases mi with _ | m <;>
    · simp only [List.mem_filterMap] at hx
      rcases hx with ⟨i, _, hget⟩
      rcases List.getElem?_eq_some_iff.1 hget with ⟨h, rfl⟩
      exact List.getElem_mem h

theorem mem_narrow_subset {filtered : List Exercise} {used : List String}
    {x : Exercise} (hx : x ∈ narrowUnused filtered used) : x ∈ filtered := by
  unfold narrowUnused at hx
  dsimp only at hx
  split at hx
  · exact hx
  · split at hx
    · exact hx
    · exact (List.mem_filter.1 hx).1

theorem mem_pick_subset {scoreFn : ScoreFn} {allEx : List Exercise} {ty : String}
    {kw : Option String} {k : Int} {g : Option String} {used : List String}
    {x : Exercise} (hx : x ∈ pickExercises scoreFn allEx ty kw k g used) :
    x ∈ allEx := by
  have hsub : ∀ y, y ∈ narrowUnused (allEx.filter (fun ex => typeMatches ex ty kw)) used →
      y ∈ allEx :=
    fun y hy => (List.mem_filter.1 (mem_narrow_subset hy)).1
  unfold pickExercises at hx
  dsimp only at hx
  split at hx
  · simp at hx
  · split at hx
    · exact hsub _ (mem_rank_subset hx)
    · refine hsub _ ?_
      rw [← List.mem_insertionSort (fun a b : Exercise => a.id ≤ b.id)]
      exact (List.take_sublist _ _).mem hx

theorem mem_preMain_subset {scoreFn : ScoreFn} {profile : UserProfile}
    {allowed : List Exercise} {used : List String} {d : Nat} {x : Exercise}
    (hx : x ∈ preMainEx scoreFn profile allowed used d) : x ∈ allowed := by
  unfold preMainEx at hx
  dsimp only at hx
  split_ifs at hx <;>
    simp only [List.mem_append] at hx <;>
    casesm* _ ∨ _ <;>
    exact mem_pick_subset (by assumption)

theorem mem_assemble_subset {scoreFn : ScoreFn} {profile : UserProfile}
    {allowed : List Exercise} {used : List String} {d : Nat} {x : Exercise}
    (hx : x ∈ assembleMainEx scoreFn profile allowed used d) : x ∈ allowed := by
  have key : ∀ y : Exercise,
      y ∈ preMainEx scoreFn profile allowed used d ++
        pickExercises scoreFn allowed "strength" none
          (mainMinimum profile.goal - ((preMainEx scoreFn profile allowed used d).length : Int))
          (some profile.goal) used → y ∈ allowed := by
    intro y hy
    rcases List.mem_append.1 hy with hy | hy
    · exact mem_preMain_subset hy
    · exact mem_pick_subset hy
  unfold assembleMainEx at hx
  dsimp only at hx
  by_cases hc : (((preMainEx scoreFn profile allowed used d).length : Int) <
      mainMinimum profile.goal)
  · rw [if_pos hc] at hx
    split at hx
    · exact key x hx
    · rw [List.mem_insertionSort] at hx
      exact key x hx
  · rw [if_neg hc] at hx
    split at hx
    · exact mem_preMain_subset hx
    · rw [List.mem_insertionSort] at hx
      exact mem_preMain_subset hx

theorem plannedForExercise_id (ms mr cd : Int) (ex : Exercise) :
    (plannedForExercise ms mr cd ex).exercise_id = ex.id := by
  unfold plannedForExercise
  split_ifs <;> rfl

theorem buildPlanned_mem {ms mr cd : Int} :
    ∀ {l : List Exercise} {usedS usedG : List String} {pe : PlannedExercise},
      pe ∈ (buildPlanned ms mr cd l usedS usedG).1 →
      ∃ ex ∈ l, pe = plannedForExercise ms mr cd ex := by
  intro l
  induction l with
  | nil => intro usedS usedG pe h; simp [buildPlanned] at h
  | cons ex rest ih =>
    intro usedS usedG pe h
    rw [buildPlanned] at h
    split at h
    · rcases ih h with ⟨ex', hmem, heq⟩
      exact ⟨ex', List.mem_cons_of_mem _ hmem, heq⟩
    · rcases List.mem_cons.1 h with heq | htail
      · exact ⟨ex, List.mem_cons_self _ _, heq⟩
      · rcases ih htail with ⟨ex', hmem, heq⟩
        exact ⟨ex', List.mem_cons_of_mem _ hmem, heq⟩

theorem buildPlanned_nodup (ms mr cd : Int) :
    ∀ (l : List Exercise) (usedS usedG : List String),
      ((buildPlanned ms mr cd l usedS usedG).1.map (·.exercise_id)).Nodup ∧
      ∀ pe ∈ (buildPlanned ms mr cd l usedS usedG).1, pe.exercise_id ∉ usedS := by
  intro l
  induction l with
  | nil => intro usedS usedG; simp [buildPlanned]
  | cons ex rest ih =>
    intro usedS usedG
    rw [buildPlanned]
    split
    case isTrue => exact ih usedS usedG
    case isFalse h =>
      rcases ih (ex.id :: usedS) (ex.id :: usedG) with ⟨hnd, hnotin⟩
      have hid : ex.id ∉ usedS := by
        intro hc
        exact h (List.elem_iff.2 hc)
      constructor
      · simp only [List.map_cons, List.nodup_cons]
        refine ⟨?_, hnd⟩
        rw [plannedForExercise_id]
        intro hc
        rcases List.mem_map.1 hc with ⟨pe, hpe, hpeid⟩
        exact hnotin pe hpe (hpeid ▸ List.mem_cons_self _ _)
      · intro pe hpe
        rcases List.mem_cons.1 hpe with heq | htail
        · rw [heq, plannedForExercise_id]; exact hid
        · intro hc
          exact hnotin pe htail (List.mem_cons_of_mem _ hc)

theorem sessionStep_eq (scoreFn : ScoreFn) (profile : UserProfile)
    (allowed : List Exercise) (sD rD cB : Int)
    (acc : List TrainingSession × List String) (wd : Nat × Nat) :
    sessionStep scoreFn profile allowed sD rD cB acc wd =
      (acc.1 ++ [(makeSession scoreFn profile allowed sD rD cB acc.2 wd.1 wd.2).1],
       (makeSession scoreFn profile allowed sD rD cB acc.2 wd.1 wd.2).2) := rfl

theorem makeSession_week_day (scoreFn : ScoreFn) (profile : UserProfile)
    (allowed : List Exercise) (sD rD cB : Int) (used : List String) (w d : Nat) :
    (makeSession scoreFn profile allowed sD rD cB used w d).1.week_index = w ∧
    (makeSession scoreFn profile allowed sD rD cB used w d).1.day_index = d :=
  ⟨rfl, rfl⟩

theorem makeSession_exercises (scoreFn : ScoreFn) (profile : UserProfile)
    (allowed : List Exercise) (sD rD cB : Int) (used : List String) (w d : Nat) :
    (makeSession scoreFn profile allowed sD rD cB used w d).1.exercises =
      (buildPlanned (volumeForWeek sD rD cB w).1 (volumeForWeek sD rD cB w).2.1
        (volumeForWeek sD rD cB w).2.2
        (assembleMainEx scoreFn profile allowed used d) [] used).1 := rfl

theorem foldl_wd_map (scoreFn : ScoreFn) (profile : UserProfile)
    (allowed : List Exercise) (sD rD cB : Int) :
    ∀ (wds : List (Nat × Nat)) (ss : List TrainingSession) (u : List String),
      ((wds.foldl (sessionStep scoreFn profile allowed sD rD cB) (ss, u)).1).map
          (fun s => (s.week_index, s.day_index)) =
        ss.map (fun s => (s.week_index, s.day_index)) ++ wds := by
  intro wds
  induction wds with
  | nil => intro ss u; simp
  | cons wd rest ih =>
    intro ss u
    rw [List.foldl_cons, sessionStep_eq, ih]
    simp only [List.map_append, List.map_cons, List.map_nil, List.append_assoc,
      List.singleton_append, List.nil_append]
    rfl

theorem foldl_sessions_mem (scoreFn : ScoreFn) (profile : UserProfile)
    (allowed : List Exercise) (sD rD cB : Int) :
    ∀ (wds : List (Nat × Nat)) (ss : List TrainingSession) (u : List String)
      (s : TrainingSession),
      s ∈ ((wds.foldl (sessionStep scoreFn profile allowed sD rD cB) (ss, u)).1) →
      s ∈ ss ∨ ∃ u' w d, s = (makeSession scoreFn profile allowed sD rD cB u' w d).1 := by
  intro wds
  induction wds with
  | nil => intro ss u s h; exact Or.inl h
  | cons wd rest ih =>
    intro ss u s h
    rw [List.foldl_cons, sessionStep_eq] at h
    rcases ih _ _ s h with hmem | hex
    · rcases List.mem_append.1 hmem with h1 | h2
      · exact Or.inl h1
      · right
        exact ⟨u, wd.1, wd.2, (List.mem_singleton.1 h2)⟩
    · exact Or.inr hex

theorem weekDayPairs_length (T S : Nat) : (weekDayPairs T S).length = T * S := by
  unfold weekDayPairs
  rw [List.length_flatMap]
  simp [Function.comp_def, List.map_const', List.sum_replicate, smul_eq_mul]

theorem weekDayPairs_mem (T S w d : Nat) :
    (w, d) ∈ weekDayPairs T S ↔ 1 ≤ w ∧ w ≤ T ∧ 1 ≤ d ∧ d ≤ S := by
  unfold weekDayPairs
  simp only [List.mem_flatMap, List.mem_map, List.mem_range, Prod.mk.injEq]
  constructor
  · rintro ⟨a, ha, b, hb, h1, h2⟩
    omega
  · rintro ⟨h1, h2, h3, h4⟩
    exact ⟨w - 1, by omega, d - 1, by omega, by omega, by omega⟩

theorem weekDayPairs_nodup (T S : Nat) : (weekDayPairs T S).Nodup := by
  unfold weekDayPairs
  rw [List.nodup_flatMap]
  constructor
  · intro x _
    exact (List.nodup_range S).map (fun a b h => by
      simpa using congrArg Prod.snd h)
  · have hlt : (List.range T).Pairwise (· < ·) := List.pairwise_lt_range T
    refine hlt.imp ?_
    intro a b hab
    intro p hpa hpb
    rcases List.mem_map.1 hpa with ⟨x, _, hx⟩
    rcases List.mem_map.1 hpb with ⟨y, _, hy⟩
    have h1 := congrArg Prod.fst hx
    have h2 := congrArg Prod.fst hy
    dsimp only at h1 h2
    omega

theorem filter_pair_length_one {L : List (Nat × Nat)} (hnd : L.Nodup) {w d : Nat}
    (hm : (w, d) ∈ L) :
    (L.filter (fun x => x.1 == w && x.2 == d)).length = 1 := by
  induction L with
  | nil => simp at hm
  | cons hd tl ih =>
    rcases List.nodup_cons.1 hnd with ⟨hhd, htl⟩
    rw [List.filter_cons]
    rcases List.mem_cons.1 hm with heq | hmem
    · subst heq
      rw [if_pos (by simp)]
      have hzero : (List.filter (fun x => x.1 == w && x.2 == d) tl).length = 0 := by
        rw [List.length_eq_zero, List.filter_eq_nil_iff]
        intro x hx
        simp only [Bool.and_eq_true, beq_iff_eq, not_and]
        intro h1 h2
        have hx2 : x = (w, d) := by rw [← h1, ← h2]
        exact absurd (hx2 ▸ hx) hhd
      simp [hzero]
    · have hneg : ¬((fun x : Nat × Nat => x.1 == w && x.2 == d) hd = true) := by
        simp only [Bool.and_eq_true, beq_iff_eq, not_and]
        intro h1 h2
        have hx2 : hd = (w, d) := by rw [← h1, ← h2]
        exact absurd hmem (hx2 ▸ hhd)
      rw [if_neg hneg]
      exact ih htl hmem

theorem recommendSessionsPerWeek_pos (reg : List Condition) (profile : UserProfile) :
    1 ≤ recommendSessionsPerWeek reg profile := by
  unfold recommendSessionsPerWeek
  exact le_max_left _ _

theorem recommendTotalWeeks_pos (profile : UserProfile) :
    1 ≤ recommendTotalWeeks profile := by
  unfold recommendTotalWeeks ruleBasedTotalWeeks
  split_ifs <;> norm_num

/-- Every planned exercise of every generated session references an eligible
catalog exercise (shared backbone of claims C1 and C10). -/
theorem plan_refs_allowed (scoreFn : ScoreFn) (reg : List Condition)
    (profile : UserProfile) (catalog : List Exercise) :
    ∀ s ∈ (generateTrainingPlan scoreFn reg profile catalog).sessions,
      ∀ pe ∈ s.exercises, ∃ ex ∈ catalog,
        allowedExercise reg profile ex = true ∧ ex.id = pe.exercise_id := by
  intro s hs pe hpe
  have hsess : (generateTrainingPlan scoreFn reg profile catalog).sessions =
      ((weekDayPairs (recommendTotalWeeks profile).toNat
          (recommendSessionsPerWeek reg profile).toNat).foldl
        (sessionStep scoreFn profile (selectAllowedExercises reg profile catalog)
          (setsRepsForStrength profile.experience_level).1
          (setsRepsForStrength profile.experience_level).2
          (durationForCardioSeconds profile.experience_level)) ([], [])).1 := rfl
  rw [hsess] at hs
  rcases foldl_sessions_mem _ _ _ _ _ _ _ _ _ _ hs with hempty | ⟨u', w, d, rfl⟩
  · simp at hempty
  · rw [makeSession_exercises] at hpe
    rcases buildPlanned_mem hpe with ⟨ex, hex, rfl⟩
    have hall : ex ∈ selectAllowedExercises reg profile catalog := mem_assemble_subset hex
    rcases List.mem_filter.1 hall with ⟨hcat, hok⟩
    exact ⟨ex, hcat, hok, (plannedForExercise_id _ _ _ _).symm⟩

/-! ## Claim theorems -/

/-- C9: `generatePlan` is deterministic — generating twice from an unchanged
profile and unchanged catalog (and the same stable ranking computation,
captured by the fixed `scoreFn`) yields identical plans, session content and
ordering included. -/
theorem C9_deterministic (scoreFn : ScoreFn) (reg : List Condition)
    (p1 p2 : UserProfile) (c1 c2 : List Exercise)
    (hp : p1 = p2) (hc : c1 = c2) :
    generateTrainingPlan scoreFn reg p1 c1 = generateTrainingPlan scoreFn reg p2 c2 := by
  rw [hp, hc]

theorem C9_witness :
    generateTrainingPlan zeroScorer [] witProfileEndurance witCatalogLegs =
      generateTrainingPlan zeroScorer [] witProfileEndurance witCatalogLegs :=
  C9_deterministic zeroScorer [] witProfileEndurance witProfileEndurance
    witCatalogLegs witCatalogLegs rfl rfl

/-- C2 (counterexample): the claim "the returned sessions-per-week is ≤
`profile.maxSessionsPerWeek` for every profile" fails at a profile declaring
`max_sessions_per_week = 0` — Python truthiness makes the code skip a zero
cap, and the result is clamped to at least 1. -/
theorem C2_sessions_cap_counterexample :
    ¬ (recommendSessionsPerWeek [] witProfileMax0 ≤
        witProfileMax0.max_sessions_per_week) := by
  decide

/-- C2 (amended): the sessions-per-week value is within `[1,7]`, is ≤ the
user cap whenever that cap is at least 1 (a zero cap means "no cap"), and is
≤ the condition-derived cap whenever that cap exists and is at least 1. -/
theorem C2_sessions_caps (reg : List Condition) (profile : UserProfile) :
    1 ≤ recommendSessionsPerWeek reg profile ∧
    recommendSessionsPerWeek reg profile ≤ 7 ∧
    (1 ≤ profile.max_sessions_per_week →
      recommendSessionsPerWeek reg profile ≤ profile.max_sessions_per_week) ∧
    (∀ cap, getSessionsLimitForProfile reg profile = some cap → 1 ≤ cap →
      recommendSessionsPerWeek reg profile ≤ cap) := by
  simp only [recommendSessionsPerWeek, min_def, max_def]
  rcases h : getSessionsLimitForProfile reg profile with _ | l <;>
    simp only [h] <;>
    split_ifs with hm <;>
    simp only [bne_iff_ne, ne_eq] at * <;>
    refine ⟨by omega, by omega, fun hc => by omega, fun cap hcap => ?_⟩ <;>
    first
      | (rw [Option.some_inj] at hcap; omega)
      | exact absurd hcap (by simp)

theorem C2_witness :
    recommendSessionsPerWeek witRegKnee witProfileKneeCap2 ≤
        witProfileKneeCap2.max_sessions_per_week ∧
    recommendSessionsPerWeek witRegKnee witProfileKneeCap2 ≤ 3 :=
  ⟨(C2_sessions_caps witRegKnee witProfileKneeCap2).2.2.1 (by decide),
   (C2_sessions_caps witRegKnee witProfileKneeCap2).2.2.2 3 (by decide) (by decide)⟩

/-- C8 (counterexample): the claim says the −1 deduction fires when the
*risk-tag set* contains the joints tag; the code tests the literal legacy
strings in `health_issues`.  A profile whose only health issue is the
condition id `joint_knee_arthrosis` has "суставы" among its risk tags, yet
the code applies no deduction (3), while the claim's formula yields 2. -/
theorem C8_rule_based_counterexample :
    ruleBasedSessionsPerWeek witProfileKnee ≠
      specRuleBasedSessionsC8 witRegKnee witProfileKnee := by
  decide

/-- C8 (amended): the rule-based baseline equals 3, +1 for high activity or
−1 for low, +1 for muscle_gain/endurance goals, −1 when the profile's
health-issue list contains the literal legacy tag "сердце" (heart) or
"суставы" (joints) — not the derived risk tags — ±0.5 for experience
extremes, rounded to the nearest integer with ties to even (Python `round`),
and clamped to `[1,5]`. -/
theorem C8_rule_based_formula (profile : UserProfile) :
    ruleBasedSessionsPerWeek profile = specRuleBasedSessionsAmended profile := by
  simp only [ruleBasedSessionsPerWeek, specRuleBasedSessionsAmended]
  split_ifs <;> first | decide | simp_all

/-- C4: no training session of a generated plan contains two planned
exercises with the same exercise id. -/
theorem C4_no_duplicate_ids_in_session (scoreFn : ScoreFn) (reg : List Condition)
    (profile : UserProfile) (catalog : List Exercise) :
    ∀ s ∈ (generateTrainingPlan scoreFn reg profile catalog).sessions,
      (s.exercises.map (·.exercise_id)).Nodup := by
  intro s hs
  have hsess : (generateTrainingPlan scoreFn reg profile catalog).sessions =
      ((weekDayPairs (recommendTotalWeeks profile).toNat
          (recommendSessionsPerWeek reg profile).toNat).foldl
        (sessionStep scoreFn profile (selectAllowedExercises reg profile catalog)
          (setsRepsForStrength profile.experience_level).1
          (setsRepsForStrength profile.experience_level).2
          (durationForCardioSeconds profile.experience_level)) ([], [])).1 := rfl
  rw [hsess] at hs
  rcases foldl_sessions_mem _ _ _ _ _ _ _ _ _ _ hs with hempty | ⟨u', w, d, rfl⟩
  · simp at hempty
  · rw [makeSession_exercises]
    exact (buildPlanned_nodup _ _ _ _ _ _).1

theorem C4_witness :
    ((((generateTrainingPlan zeroScorer [] witProfileEndurance witCatalogLegs).sessions.head
        (by decide)).exercises).map (·.exercise_id)).Nodup :=
  C4_no_duplicate_ids_in_session zeroScorer [] witProfileEndurance witCatalogLegs
    _ (List.head_mem _)

/-- C10: every planned exercise in every session of a generated plan carries
an `exercise_id` equal to the id of some catalog exercise that passes the
eligibility filter, so every reference in the plan is resolvable against the
catalog it was generated from. -/
theorem C10_refs_resolvable (scoreFn : ScoreFn) (reg : List Condition)
    (profile : UserProfile) (catalog : List Exercise) :
    ∀ s ∈ (generateTrainingPlan scoreFn reg profile catalog).sessions,
      ∀ pe ∈ s.exercises, ∃ ex ∈ catalog,
        allowedExercise reg profile ex = true ∧ ex.id = pe.exercise_id :=
  plan_refs_allowed scoreFn reg profile catalog

theorem C10_witness :
    ∃ ex ∈ witCatalogLegs, allowedExercise [] witProfileEndurance ex = true ∧
      ex.id = ((((generateTrainingPlan zeroScorer [] witProfileEndurance
          witCatalogLegs).sessions.head (by decide)).exercises).head
            (by decide)).exercise_id :=
  C10_refs_resolvable zeroScorer [] witProfileEndurance witCatalogLegs
    _ (List.head_mem _) _ (List.head_mem _)

/-- C1: an exercise whose contraindication tags intersect the profile's
risk-tag set is absent from the eligible pool, and (when its id is unique in
the catalog) no planned exercise of the generated plan references its id. -/
theorem C1_contraindicated_never_planned (scoreFn : ScoreFn)
    (reg : List Condition) (profile : UserProfile) (catalog : List Exercise)
    (ex : Exercise) (hmem : ex ∈ catalog)
    (hrisk : ∃ t ∈ getRiskTagsForProfile reg profile, t ∈ ex.contraindications)
    (huniq : ∀ ex' ∈ catalog, ex'.id = ex.id → ex' = ex) :
    ex ∉ selectAllowedExercises reg profile catalog ∧
    ∀ s ∈ (generateTrainingPlan scoreFn reg profile catalog).sessions,
      ∀ pe ∈ s.exercises, pe.exercise_id ≠ ex.id := by
  have hnotallowed : allowedExercise reg profile ex = false := by
    rcases hrisk with ⟨t, ht1, ht2⟩
    have hany : (getRiskTagsForProfile reg profile).any
        (fun t => ex.contraindications.contains t) = true :=
      List.any_eq_true.2 ⟨t, ht1, List.elem_iff.2 ht2⟩
    unfold allowedExercise
    rw [hany]
    simp
  refine ⟨?_, ?_⟩
  · intro hc
    have h2 := (List.mem_filter.1 hc).2
    rw [hnotallowed] at h2
    exact absurd h2 (by simp)
  · intro s hs pe hpe heq
    rcases plan_refs_allowed scoreFn reg profile catalog s hs pe hpe with
      ⟨ex', hcat, hok, hid⟩
    have : ex' = ex := huniq ex' hcat (by rw [hid, heq])
    rw [this, hnotallowed] at hok
    exact absurd hok (by simp)

theorem C1_witness :
    (∃ t ∈ getRiskTagsForProfile [] witProfileJoints, t ∈ witExContra.contraindications) ∧
    witExContra ∉ selectAllowedExercises [] witProfileJoints witCatalogContra ∧
    ∀ s ∈ (generateTrainingPlan zeroScorer [] witProfileJoints witCatalogContra).sessions,
      ∀ pe ∈ s.exercises, pe.exercise_id ≠ witExContra.id :=
  ⟨by decide,
   C1_contraindicated_never_planned zeroScorer [] witProfileJoints witCatalogContra
     witExContra (by decide) (by decide) (by decide)⟩

/-- C3: a generated plan contains exactly `totalWeeks × sessionsPerWeek`
sessions, and every `(week, day)` pair in
`[1..totalWeeks] × [1..sessionsPerWeek]` appears as the
`(week_index, day_index)` of exactly one session. -/
theorem C3_session_count_coverage (scoreFn : ScoreFn) (reg : List Condition)
    (profile : UserProfile) (catalog : List Exercise) :
    (((generateTrainingPlan scoreFn reg profile catalog).sessions.length : Int) =
      (generateTrainingPlan scoreFn reg profile catalog).total_weeks *
        (generateTrainingPlan scoreFn reg profile catalog).sessions_per_week) ∧
    (∀ w d : Nat, 1 ≤ w →
      (w : Int) ≤ (generateTrainingPlan scoreFn reg profile catalog).total_weeks →
      1 ≤ d →
      (d : Int) ≤ (generateTrainingPlan scoreFn reg profile catalog).sessions_per_week →
      ((generateTrainingPlan scoreFn reg profile catalog).sessions.filter
        (fun s => s.week_index == w && s.day_index == d)).length = 1) := by
  have htwpos := recommendTotalWeeks_pos profile
  have hspwpos := recommendSessionsPerWeek_pos reg profile
  have hsess : (generateTrainingPlan scoreFn reg profile catalog).sessions =
      ((weekDayPairs (recommendTotalWeeks profile).toNat
          (recommendSessionsPerWeek reg profile).toNat).foldl
        (sessionStep scoreFn profile (selectAllowedExercises reg profile catalog)
          (setsRepsForStrength profile.experience_level).1
          (setsRepsForStrength profile.experience_level).2
          (durationForCardioSeconds profile.experience_level)) ([], [])).1 := rfl
  have htw : (generateTrainingPlan scoreFn reg profile catalog).total_weeks =
      recommendTotalWeeks profile := rfl
  have hspw : (generateTrainingPlan scoreFn reg profile catalog).sessions_per_week =
      recommendSessionsPerWeek reg profile := rfl
  have hmap : ((generateTrainingPlan scoreFn reg profile catalog).sessions).map
      (fun s => (s.week_index, s.day_index)) =
      weekDayPairs (recommendTotalWeeks profile).toNat
        (recommendSessionsPerWeek reg profile).toNat := by
    rw [hsess, foldl_wd_map]
    simp
  constructor
  · have hlen : ((generateTrainingPlan scoreFn reg profile catalog).sessions).length =
        (recommendTotalWeeks profile).toNat *
          (recommendSessionsPerWeek reg profile).toNat := by
      rw [← weekDayPairs_length, ← hmap, List.length_map]
    rw [hlen, htw, hspw, Nat.cast_mul, Int.toNat_of_nonneg (by omega),
      Int.toNat_of_nonneg (by omega)]
  · intro w d hw1 hw2 hd1 hd2
    rw [htw] at hw2
    rw [hspw] at hd2
    have hmem : (w, d) ∈ weekDayPairs (recommendTotalWeeks profile).toNat
        (recommendSessionsPerWeek reg profile).toNat :=
      (weekDayPairs_mem _ _ _ _).2 ⟨hw1, by omega, hd1, by omega⟩
    have key : ((weekDayPairs (recommendTotalWeeks profile).toNat
        (recommendSessionsPerWeek reg profile).toNat).filter
          (fun x => x.1 == w && x.2 == d)).length = 1 :=
      filter_pair_length_one (weekDayPairs_nodup _ _) hmem
    calc ((generateTrainingPlan scoreFn reg profile catalog).sessions.filter
            (fun s => s.week_index == w && s.day_index == d)).length
        = (((generateTrainingPlan scoreFn reg profile catalog).sessions.filter
            (fun s => s.week_index == w && s.day_index == d)).map
              (fun s => (s.week_index, s.day_index))).length := by
          rw [List.length_map]
      _ = (((generateTrainingPlan scoreFn reg profile catalog).sessions.map
            (fun s => (s.week_index, s.day_index))).filter
              (fun x => x.1 == w && x.2 == d)).length := by
          rw [List.filter_map]
          rfl
      _ = 1 := by rw [hmap]; exact key

theorem C3_witness :
    (((generateTrainingPlan zeroScorer [] witProfileEndurance
        witCatalogLegs).sessions.length : Int) =
      (generateTrainingPlan zeroScorer [] witProfileEndurance
        witCatalogLegs).total_weeks *
        (generateTrainingPlan zeroScorer [] witProfileEndurance
          witCatalogLegs).sessions_per_week) ∧
    ((generateTrainingPlan zeroScorer [] witProfileEndurance
        witCatalogLegs).sessions.filter
      (fun s => s.week_index == 1 && s.day_index == 1)).length = 1 :=
  ⟨(C3_session_count_coverage zeroScorer [] witProfileEndurance witCatalogLegs).1,
   (C3_session_count_coverage zeroScorer [] witProfileEndurance witCatalogLegs).2
     1 1 (by decide) (by decide) (by decide) (by decide)⟩

theorem filterMap_getElem_length (exs : List Exercise) :
    ∀ l : List Nat, (∀ i ∈ l, i < exs.length) →
      (l.filterMap (fun i => exs[i]?)).length = l.length := by
  intro l
  induction l with
  | nil => intro _; rfl
  | cons i rest ih =>
    intro h
    have hi : i < exs.length := h i (List.mem_cons_self _ _)
    rw [List.filterMap_cons, List.getElem?_eq_getElem hi]
    simp only [List.length_cons]
    rw [ih (fun j hj => h j (List.mem_cons_of_mem _ hj))]

/-- With a length-correct scorer, `rank_exercises_for_goal` with a given
`max_items` returns exactly `min max(1, max_items) |corpus|` exercises (the
source clamps `max_items` to at least 1 before truncating). -/
theorem rank_length (scoreFn : ScoreFn)
    (hgood : ∀ g exs, (scoreFn g exs).length = exs.length)
    (g : String) (exs : List Exercise) (m : Int) :
    (rankExercisesForGoal scoreFn g exs (some m)).length =
      min (max 1 m).toNat exs.length := by
  unfold rankExercisesForGoal
  split
  case isTrue h =>
    have h1 : (1 : Int) ≤ max 1 m := le_max_left _ _
    have h2 : 1 ≤ (max 1 m).toNat := by omega
    omega
  case isFalse h =>
    dsimp only
    have hperm : (argsortDesc (scoreFn g exs)).Perm
        (List.range (scoreFn g exs).length) := List.perm_insertionSort _ _
    have hlt : ∀ i ∈ argsortDesc (scoreFn g exs), i < exs.length := by
      intro i hi
      have hmem := hperm.mem_iff.1 hi
      rw [List.mem_range, hgood] at hmem
      exact hmem
    rw [filterMap_getElem_length _ _ (fun i hi => hlt i ((List.take_sublist _ _).mem hi))]
    rw [List.length_take]
    have hlen : (argsortDesc (scoreFn g exs)).length = exs.length := by
      rw [hperm.length_eq, List.length_range, hgood]
    rw [hlen]

/-- With a length-correct scorer, `_pick_exercises` returns exactly
`min max_items |narrowed pool|` exercises (for `max_items ≥ 1`),
where the narrowed pool is the type/keyword filter after unused-first
narrowing. -/
theorem pick_length (scoreFn : ScoreFn)
    (hgood : ∀ g exs, (scoreFn g exs).length = exs.length)
    (allEx : List Exercise) (ty : String) (kw : Option String) (k : Int)
    (g : Option String) (used : List String) (hk : 1 ≤ k) :
    (pickExercises scoreFn allEx ty kw k g used).length =
      min k.toNat
        (narrowUnused (allEx.filter (fun ex => typeMatches ex ty kw)) used).length := by
  unfold pickExercises
  dsimp only
  split
  case isTrue h =>
    rw [List.isEmpty_iff] at h
    rw [h]
    simp [narrowUnused]
  case isFalse h =>
    split
    case isTrue hg =>
      rw [rank_length scoreFn hgood _ _ k, max_eq_right hk]
    case isFalse hg =>
      rw [List.length_take, List.length_insertionSort]

/-- C5 (counterexample): the claim "a session contains fewer than the
goal-specific minimum only when the eligible pool cannot supply that many
distinct exercises" fails: for the endurance goal with four distinct eligible
leg-strength exercises, the template pick and the padding pick both return
the same top-2 ranked exercises, so after within-session deduplication the
first session has 2 < 4 exercises although the pool has 4 distinct ones. -/
theorem C5_padding_counterexample :
    ((((generateTrainingPlan zeroScorer [] witProfileEndurance
        witCatalogLegs).sessions.head (by decide)).exercises.length : Int) <
      mainMinimum witProfileEndurance.goal) ∧
    mainMinimum witProfileEndurance.goal ≤
      (((selectAllowedExercises [] witProfileEndurance witCatalogLegs).map
        (·.id)).dedup.length : Int) := by
  decide

/-- C5 (amended): padding tops up the *assembled pre-deduplication* list:
generic strength picks are appended until that list reaches the goal minimum
or the generic strength pool (eligible strength exercises, narrowed to
unused-first) is exhausted; since the appended picks may repeat exercises
already in the block, the deduplicated session may still fall short of the
minimum.  Formally: if the assembled main block is shorter than the minimum,
the narrowed generic strength pool could not supply the shortfall. -/
theorem C5_padding_shortfall (scoreFn : ScoreFn)
    (hgood : ∀ g exs, (scoreFn g exs).length = exs.length)
    (profile : UserProfile) (allowed : List Exercise) (used : List String)
    (d : Nat)
    (hshort : ((assembleMainEx scoreFn profile allowed used d).length : Int) <
      mainMinimum profile.goal) :
    ((genericStrengthPool allowed used).length : Int) <
      mainMinimum profile.goal -
        ((preMainEx scoreFn profile allowed used d).length : Int) := by
  unfold assembleMainEx at hshort
  dsimp only at hshort
  by_cases hc : (((preMainEx scoreFn profile allowed used d).length : Int) <
      mainMinimum profile.goal)
  · rw [if_pos hc] at hshort
    have hlen : ∀ (l : List Exercise),
        (if l.isEmpty = true then l
         else List.insertionSort
           (fun a b : Exercise => exercisePriority a ≤ exercisePriority b) l).length =
        l.length := by
      intro l
      split
      · rfl
      · exact List.length_insertionSort _ _
    rw [hlen, List.length_append,
      pick_length scoreFn hgood allowed "strength" none _ (some profile.goal) used
        (by omega)] at hshort
    unfold genericStrengthPool
    omega
  · rw [if_neg hc] at hshort
    exact absurd hshort (by
      have hlen : ∀ (l : List Exercise),
          (if l.isEmpty = true then l
           else List.insertionSort
             (fun a b : Exercise => exercisePriority a ≤ exercisePriority b) l).length =
          l.length := by
        intro l
        split
        · rfl
        · exact List.length_insertionSort _ _
      rw [hlen]
      omega)

theorem C5_witness :
    ((genericStrengthPool witCatalogOneLeg []).length : Int) <
      mainMinimum witProfileEndurance.goal -
        ((preMainEx zeroScorer witProfileEndurance witCatalogOneLeg [] 1).length : Int) :=
  C5_padding_shortfall zeroScorer (fun g exs => by simp [zeroScorer])
    witProfileEndurance witCatalogOneLeg [] 1 (by decide)

/-- Adding a declared equipment item can only keep the equipment rule
satisfied, provided the declared set was already non-empty or the location is
"home" (an empty set away from home means "unrestricted", which a singleton
does not). -/
theorem equipmentOk_mono (profile : UserProfile) (item : String) (ex : Exercise)
    (hne : profile.available_equipment ≠ [] ∨ profile.preferred_location = "home")
    (h : equipmentOk profile ex = true) :
    equipmentOk { profile with available_equipment := item :: profile.available_equipment }
      ex = true := by
  unfold equipmentOk at h ⊢
  dsimp only at h ⊢
  have hmono : ((List.map lowerStr ex.equipment).any fun e =>
      (List.map lowerStr profile.available_equipment).contains e) = true →
      ((List.map lowerStr ex.equipment).any fun e =>
        (lowerStr item :: List.map lowerStr profile.available_equipment).contains e) = true := by
    intro ha
    rcases List.any_eq_true.1 ha with ⟨e, he, hc⟩
    refine List.any_eq_true.2 ⟨e, he, ?_⟩
    simp only [List.contains_cons, hc, Bool.or_true]
  rw [List.map_cons]
  by_cases hloc : (profile.preferred_location == "home") = true
  · rw [if_pos hloc] at h ⊢
    rcases Bool.dichotomy ((List.map lowerStr ex.equipment).isEmpty) with hA | hA
    · rw [hA] at h ⊢
      simp only [Bool.not_false, Bool.true_and, Bool.not_eq_true', Bool.or_eq_false_iff,
        Bool.not_eq_false] at h
      simp only [List.isEmpty_cons, Bool.not_false, Bool.true_and, Bool.not_eq_true',
        Bool.or_eq_false_iff, Bool.not_eq_false, Bool.false_or]
      have h2 : ((List.map lowerStr ex.equipment).any fun e =>
          (List.map lowerStr profile.available_equipment).contains e) = true := by
        simpa using h.2
      rw [hmono h2]
      rfl
    · rw [hA]
      simp
  · rw [if_neg hloc] at h ⊢
    have hu : profile.available_equipment ≠ [] := by
      rcases hne with h1 | h1
      · exact h1
      · exact absurd (by simp [h1] : (profile.preferred_location == "home") = true) hloc
    have hU : (List.map lowerStr profile.available_equipment).isEmpty = false := by
      rw [List.isEmpty_eq_false]
      simp [hu]
    rcases Bool.dichotomy ((List.map lowerStr ex.equipment).isEmpty) with hA | hA
    · rw [hA] at h ⊢
      rw [hU] at h
      simp only [Bool.not_false, Bool.true_and, Bool.not_eq_true', Bool.and_eq_false_iff,
        Bool.not_eq_false] at h
      simp only [List.isEmpty_cons, Bool.not_false, Bool.true_and, Bool.not_eq_true',
        Bool.and_eq_false_iff, Bool.not_eq_false]
      have h2 : ((List.map lowerStr ex.equipment).any fun e =>
          (List.map lowerStr profile.available_equipment).contains e) = true := by
        simpa using h
      rw [hmono h2]
      rfl
    · rw [hA]
      simp

/-- C7 (counterexample): the eligibility filter is not monotonic in declared
equipment as claimed — a gym profile with an *empty* (hence unrestricted)
equipment list keeps a barbell exercise, but declaring a first unrelated item
("mat") removes it.  The exercise satisfies the claim's hedge "whose only
potentially-failing rule is the equipment rule": the location, difficulty and
contraindication rules are shown to pass for both the original and the
extended profile, so only the equipment rule changed the verdict. -/
theorem C7_equipment_monotonicity_counterexample :
    (witExBarbell ∈ selectAllowedExercises [] witProfileGymNoEq [witExBarbell] ∧
     witExBarbell ∉ selectAllowedExercises []
      { witProfileGymNoEq with
          available_equipment := "mat" :: witProfileGymNoEq.available_equipment }
      [witExBarbell]) ∧
    (locationOk witProfileGymNoEq witExBarbell = true ∧
     locationOk
      { witProfileGymNoEq with
          available_equipment := "mat" :: witProfileGymNoEq.available_equipment }
      witExBarbell = true) ∧
    (difficultyScore witExBarbell.difficulty ≤
      difficultyScore witProfileGymNoEq.experience_level + 1 ∧
     difficultyScore witExBarbell.difficulty ≤
      difficultyScore
        ({ witProfileGymNoEq with
            available_equipment := "mat" :: witProfileGymNoEq.available_equipment }).experience_level + 1) ∧
    ((getRiskTagsForProfile [] witProfileGymNoEq).any
      (fun t => witExBarbell.contraindications.contains t) = false ∧
     (getRiskTagsForProfile []
        { witProfileGymNoEq with
            available_equipment := "mat" :: witProfileGymNoEq.available_equipment }).any
      (fun t => witExBarbell.contraindications.contains t) = false) := by
  decide

/-- C7 (amended): adding an item to `profile.availableEquipment` never
removes a previously eligible exercise, provided the declared equipment set
was already non-empty or the preferred location is "home" (an empty declared
set away from home means "unrestricted", so declaring a first item can only
shrink the pool). -/
theorem C7_equipment_monotonic (reg : List Condition) (profile : UserProfile)
    (item : String) (catalog : List Exercise) (ex : Exercise)
    (hne : profile.available_equipment ≠ [] ∨ profile.preferred_location = "home")
    (hmem : ex ∈ selectAllowedExercises reg profile catalog) :
    ex ∈ selectAllowedExercises reg
      { profile with available_equipment := item :: profile.available_equipment }
      catalog := by
  rcases List.mem_filter.1 hmem with ⟨hcat, hok⟩
  refine List.mem_filter.2 ⟨hcat, ?_⟩
  unfold allowedExercise at hok ⊢
  simp only [Bool.and_eq_true] at hok
  obtain ⟨⟨⟨hl, he⟩, hd⟩, hr⟩ := hok
  simp only [Bool.and_eq_true]
  exact ⟨⟨⟨hl, equipmentOk_mono profile item ex hne he⟩, hd⟩, hr⟩

theorem C7_witness :
    witExMat ∈ selectAllowedExercises []
      { witProfileHomeMat with
          available_equipment := "barbell" :: witProfileHomeMat.available_equipment }
      [witExMat] :=
  C7_equipment_monotonic [] witProfileHomeMat "barbell" [witExMat] witExMat
    (by decide) (by decide)

instance rankRelTotal (scores : List ℚ) : IsTotal Nat (rankRel scores) := ⟨by
  intro i j
  unfold rankRel
  rcases lt_trichotomy (scores.getD i 0) (scores.getD j 0) with h | h | h
  · exact Or.inr (Or.inl h)
  · rcases Nat.le_total i j with hij | hij
    · exact Or.inl (Or.inr ⟨h, hij⟩)
    · exact Or.inr (Or.inr ⟨h.symm, hij⟩)
  · exact Or.inl (Or.inl h)⟩

instance rankRelTrans (scores : List ℚ) : IsTrans Nat (rankRel scores) := ⟨by
  intro a b c hab hbc
  unfold rankRel at hab hbc ⊢
  rcases hab with h1 | ⟨h1, h1'⟩ <;> rcases hbc with h2 | ⟨h2, h2'⟩
  · exact Or.inl (h2.trans h1)
  · exact Or.inl (h2 ▸ h1)
  · exact Or.inl (h1 ▸ h2)
  · exact Or.inr ⟨h1.trans h2, h1'.trans h2'⟩⟩

theorem range_filterMap_getElem {α : Type} (l : List α) :
    (List.range l.length).filterMap (fun i => l[i]?) = l := by
  induction l with
  | nil => rfl
  | cons a tl ih =>
    rw [List.length_cons, List.range_succ_eq_map, List.filterMap_cons]
    simp only [List.getElem?_cons_zero, List.filterMap_map]
    simp only [Function.comp_def, List.getElem?_cons_succ]
    rw [ih]

/-- C6 (counterexample): the claim "with `maxItems` given, `rankForGoal`
returns at most `maxItems` exercises" fails at `maxItems = 0`: the code
clamps `max_items` to at least 1 and returns one exercise. -/
theorem C6_rank_counterexample :
    ¬ ((rankExercisesForGoal zeroScorer "maintenance" witCatalogLegs
        (some 0)).length ≤ 0) := by
  decide

/-- C6 (amended): with a corpus of 0 or 1 exercises `rankForGoal` returns
the input unchanged (for any `maxItems`); with `N ≥ 2` and `maxItems`
omitted it returns a permutation of the input read off along an index order
that is a permutation of all positions with non-increasing relevance scores
(the order of equal scores is not part of the contract: numpy's default
`argsort` kind is not stable, so the spec's stability clause is dropped);
with `maxItems` given it returns at most `max(1, maxItems)` exercises
(`maxItems ≤ 0` is clamped to 1). -/
theorem C6_rank_properties (scoreFn : ScoreFn)
    (hgood : ∀ g exs, (scoreFn g exs).length = exs.length)
    (g : String) (exs : List Exercise) :
    (∀ mi, exs.length ≤ 1 → rankExercisesForGoal scoreFn g exs mi = exs) ∧
    (2 ≤ exs.length →
      (rankExercisesForGoal scoreFn g exs none).Perm exs ∧
      ∃ order : List Nat,
        order.Perm (List.range exs.length) ∧
        order.Pairwise (fun i j =>
          (scoreFn g exs).getD j 0 ≤ (scoreFn g exs).getD i 0) ∧
        rankExercisesForGoal scoreFn g exs none =
          order.filterMap (fun i => exs[i]?)) ∧
    (∀ m : Int,
      ((rankExercisesForGoal scoreFn g exs (some m)).length : Int) ≤ max 1 m) := by
  have hperm : (argsortDesc (scoreFn g exs)).Perm (List.range exs.length) := by
    unfold argsortDesc
    rw [← hgood g exs]
    exact List.perm_insertionSort _ _
  refine ⟨?_, ?_, ?_⟩
  · intro mi hle
    unfold rankExercisesForGoal
    rw [if_pos hle]
  · intro h2
    have hne : ¬ (exs.length ≤ 1) := by omega
    constructor
    · unfold rankExercisesForGoal
      rw [if_neg hne]
      simpa [range_filterMap_getElem exs] using
        hperm.filterMap (fun i => exs[i]?)
    · refine ⟨argsortDesc (scoreFn g exs), hperm, ?_, ?_⟩
      · refine (List.sorted_insertionSort (rankRel (scoreFn g exs)) _).imp ?_
        intro i j hij
        rcases hij with h | ⟨h, _⟩
        · exact h.le
        · exact h.symm.le
      · unfold rankExercisesForGoal
        rw [if_neg hne]
  · intro m
    have h1 : (rankExercisesForGoal scoreFn g exs (some m)).length ≤
        (max 1 m).toNat := by
      rw [rank_length scoreFn hgood g exs m]
      exact Nat.min_le_left _ _
    have h2 : (((max 1 m).toNat : Nat) : Int) = max 1 m :=
      Int.toNat_of_nonneg (le_trans zero_le_one (le_max_left _ _))
    calc ((rankExercisesForGoal scoreFn g exs (some m)).length : Int)
        ≤ (((max 1 m).toNat : Nat) : Int) := by exact_mod_cast h1
      _ = max 1 m := h2

theorem C6_witness :
    (∀ mi, witCatalogLegs.length ≤ 1 →
      rankExercisesForGoal zeroScorer "maintenance" witCatalogLegs mi = witCatalogLegs) ∧
    (2 ≤ witCatalogLegs.length →
      (rankExercisesForGoal zeroScorer "maintenance" witCatalogLegs none).Perm
        witCatalogLegs ∧
      ∃ order : List Nat,
        order.Perm (List.range witCatalogLegs.length) ∧
        order.Pairwise (fun i j =>
          (zeroScorer "maintenance" witCatalogLegs).getD j 0 ≤
            (zeroScorer "maintenance" witCatalogLegs).getD i 0) ∧
        rankExercisesForGoal zeroScorer "maintenance" witCatalogLegs none =
          order.filterMap (fun i => witCatalogLegs[i]?)) ∧
    (∀ m : Int,
      ((rankExercisesForGoal zeroScorer "maintenance" witCatalogLegs
        (some m)).length : Int) ≤ max 1 m) :=
  C6_rank_properties zeroScorer (fun g exs => by simp [zeroScorer])
    "maintenance" witCatalogLegs

end RecTrain
